import Mathlib

/-!
Shallow embedding of the process-supervision core of Kweebec-Manager
(`src/backend/src/services/process_manager.rs`).

The Rust code guards a `HashMap<String, ServerProcess>` behind one
reader-writer lock; every lifecycle operation acquires that lock once and
performs its check/mutation while holding it, so each operation is modelled
here as one atomic transition on an explicit state value.  Interactions with
the operating system (spawning, `try_wait`, `kill`, stdin writes, sysinfo
lookups, filesystem walks) are modelled as explicit parameters carrying the
OS's answer, and the observable actions an operation performs (writing the
shutdown command, sleeping the grace period, force-killing) are returned as a
trace.
-/

namespace KweebecManager

/-- Error type mirroring `crate::error::AppError` variants used by the
process manager. -/
inductive AppError where
  | BadRequest (msg : String)
  | NotFound (msg : String)
  | Internal (msg : String)
deriving Repr, DecidableEq

/-- Result of `child.try_wait()` as observed by the code: `Ok(None)` means the
process is still running, `Ok(Some(status))` means it has exited, `Err(e)`
is an OS error whose text is `e`. -/
inductive TryWaitRes where
  | stillRunning
  | exited
  | waitError (e : String)
deriving Repr, DecidableEq

/-- The metrics JSON object built by the metrics loop: always `cpu` and
`memory`; `disk_bytes` only on ticks where the disk walk runs. -/
structure MetricsJson where
  cpu : Nat
  memory : Nat
  disk_bytes : Option Nat
deriving Repr, DecidableEq

/-- A message on a record's broadcast log channel: raw scanned lines,
synthetic `[STATUS]: ...` lines, and tagged `[METRICS]: ...` messages. -/
inductive LogMsg where
  | line (s : String)
  | status (s : String)
  | metrics (m : MetricsJson)
deriving Repr, DecidableEq

/-- An OS child-process handle (`std::process::Child`).  `start` always
configures piped stdin/stdout/stderr (`Stdio::piped()`), and no code path
drops the stdin pipe (both `stop` and `send_command` use `stdin.as_mut()`),
so the input stream is always present on a tracked handle. -/
structure ChildHandle where
  pid : Nat
deriving Repr, DecidableEq

/-- One entry of the process table, mirroring `ServerProcess`.  The CPU
reading is an abstract sampled value (the code stores the `f32` from sysinfo
unchanged, performing no arithmetic on it), timestamps are abstract instants.
The log channel is modelled by the history of messages sent on it; a
subscriber is a position into that history. -/
structure ServerProcess where
  child : Option ChildHandle
  logCh : List LogMsg
  players : List String
  last_metrics : Option MetricsJson
  last_cpu : Nat
  last_memory : Nat
  last_disk : Nat
  working_dir : String
  started_at : Option Nat
  auth_required : Bool
deriving Repr, DecidableEq

/-- The process manager's state: the table behind
`Arc<RwLock<HashMap<String, ServerProcess>>>`, as an association list. -/
structure PMState where
  processes : List (String × ServerProcess)
deriving Repr, DecidableEq

/-! Association-list operations modelling the `HashMap`. -/

/-- `HashMap::get` / `get_mut`: first binding for the key. -/
def lookupKV {β : Type} : List (String × β) → String → Option β
  | [], _ => none
  | (k, v) :: rest, key => if k = key then some v else lookupKV rest key

/-- `HashMap::contains_key`. -/
def containsKV {β : Type} (l : List (String × β)) (key : String) : Bool :=
  (lookupKV l key).isSome

/-- `HashMap::remove`. -/
def removeKV {β : Type} (l : List (String × β)) (key : String) : List (String × β) :=
  l.filter (fun kv => kv.1 ≠ key)

/-- `HashMap::insert` at a key.  Every insertion in the source happens under
the table's write lock immediately after a `contains_key` check for the same
key returned false, so insertion never overwrites; prepending models it
exactly on all reachable states. -/
def insertKV {β : Type} (l : List (String × β)) (key : String) (v : β) : List (String × β) :=
  (key, v) :: l

/-- In-place update of the record at a key (mutation through `get_mut` or a
shared `Arc` field of the record). -/
def mapValueAt {β : Type} (l : List (String × β)) (key : String) (f : β → β) : List (String × β) :=
  l.map (fun kv => if kv.1 = key then (kv.1, f kv.2) else kv)

/-- Set insertion on the player `HashSet`. -/
def insertSet (s : List String) (x : String) : List String :=
  if x ∈ s then s else x :: s

/-- Set removal on the player `HashSet`. -/
def removeSet (s : List String) (x : String) : List String :=
  s.filter (fun y => y ≠ x)

/-! Lifecycle operations. -/

/-- `ProcessManager::register_installing`: under one write-lock acquisition,
fail with `AlreadyActive` if a record exists, otherwise insert a fresh
virtual record (no handle). -/
def register_installing (st : PMState) (server_id working_dir : String) (now : Nat) :
    PMState × Except AppError Unit :=
  if containsKV st.processes server_id then
    (st, .error (.BadRequest "Server already active"))
  else
    ({ processes := insertKV st.processes server_id
        { child := none
          logCh := []
          players := []
          last_metrics := none
          last_cpu := 0
          last_memory := 0
          last_disk := 0
          working_dir := working_dir
          started_at := some now
          auth_required := false } }, .ok ())

/-- `ProcessManager::remove`: unconditionally drop the record. -/
def remove (st : PMState) (server_id : String) : PMState :=
  { processes := removeKV st.processes server_id }

/-- `ProcessManager::start`: under one write-lock acquisition, fail with
`AlreadyActive` if a record exists; otherwise spawn the OS process and insert
a record with the handle.  The spawn outcome is the OS's answer: `.ok pid`
on success, `.error e` when the OS refuses (`cmd.spawn()` returning `Err(e)`),
in which case `start` returns `Internal("Failed to start server: " ++ e)`
before anything is inserted.  Command-line construction (java path, memory
flags, `--bind`) only shapes the spawned command and is absorbed into the
spawn parameter.  The new record's channel carries the initial
`[STATUS]: running` message sent right after channel creation. -/
def start (st : PMState) (server_id working_dir : String)
    (spawn : Except String Nat) (now : Nat) :
    PMState × Except AppError Unit :=
  if containsKV st.processes server_id then
    (st, .error (.BadRequest "Server already running"))
  else
    match spawn with
    | .error e => (st, .error (.Internal ("Failed to start server: " ++ e)))
    | .ok pid =>
        ({ processes := insertKV st.processes server_id
            { child := some { pid := pid }
              logCh := [LogMsg.status "running"]
              players := []
              last_metrics := none
              last_cpu := 0
              last_memory := 0
              last_disk := 0
              working_dir := working_dir
              started_at := some now
              auth_required := false } }, .ok ())

/-- Observable actions a `stop` call performed. -/
structure StopTrace where
  sentShutdown : Bool
  graceWaitSecs : Nat
  forceKilled : Bool
deriving Repr, DecidableEq

/-- `ProcessManager::stop`: `NotRunning` if absent; with a handle, write
`/shutdown` to the process's stdin, sleep 5 seconds, `try_wait`, and `kill`
only if still running (`tw` is the liveness observed after the grace period,
`killErr` the OS answer to `kill`); in every non-error outcome the record is
removed before returning. -/
def stop (st : PMState) (server_id : String) (tw : TryWaitRes) (killErr : Option String) :
    PMState × Except AppError Unit × StopTrace :=
  match lookupKV st.processes server_id with
  | none => (st, .error (.NotFound "Server not running"), ⟨false, 0, false⟩)
  | some proc =>
      match proc.child with
      | none => (remove st server_id, .ok (), ⟨false, 0, false⟩)
      | some _ =>
          match tw with
          | .waitError e => (st, .error (.Internal e), ⟨true, 5, false⟩)
          | .exited => (remove st server_id, .ok (), ⟨true, 5, false⟩)
          | .stillRunning =>
              match killErr with
              | some e =>
                  (st, .error (.Internal ("Failed to kill server: " ++ e)), ⟨true, 5, false⟩)
              | none => (remove st server_id, .ok (), ⟨true, 5, true⟩)

/-- `ProcessManager::kill`: `NotRunning` if absent; force-kill immediately
(no shutdown command, no grace period) and remove the record. -/
def kill (st : PMState) (server_id : String) (killErr : Option String) :
    PMState × Except AppError Unit × StopTrace :=
  match lookupKV st.processes server_id with
  | none => (st, .error (.NotFound "Server not running"), ⟨false, 0, false⟩)
  | some proc =>
      match proc.child with
      | none => (remove st server_id, .ok (), ⟨false, 0, false⟩)
      | some _ =>
          match killErr with
          | some e =>
              (st, .error (.Internal ("Failed to kill server: " ++ e)), ⟨false, 0, false⟩)
          | none => (remove st server_id, .ok (), ⟨false, 0, true⟩)

/-- `ProcessManager::is_running`: absent → false; virtual record → true;
with a handle, `try_wait` decides: still running → true, exited → lazy
cleanup (remove the record) and false, error → false with no cleanup. -/
def is_running (st : PMState) (server_id : String) (tw : TryWaitRes) : Bool × PMState :=
  match lookupKV st.processes server_id with
  | none => (false, st)
  | some proc =>
      match proc.child with
      | none => (true, st)
      | some _ =>
          match tw with
          | .stillRunning => (true, st)
          | .exited => (false, remove st server_id)
          | .waitError _ => (false, st)

/-- `ProcessManager::is_installing`: a record with no handle. -/
def is_installing (st : PMState) (server_id : String) : Bool :=
  match lookupKV st.processes server_id with
  | none => false
  | some proc => proc.child.isNone

/-- The credential artifact path checked by `is_auth_required`:
`Path::new(working_dir).join("auth.enc")`. -/
def authFilePath (working_dir : String) : String :=
  working_dir ++ "/auth.enc"

/-- `ProcessManager::is_auth_required`: absent → false; flag false → false;
flag true and `auth.enc` exists under the working directory → clear the flag
and return false (filesystem is authoritative); flag true otherwise → true.
`fsExists` is the filesystem's answer to `Path::exists`. -/
def is_auth_required (st : PMState) (server_id : String) (fsExists : String → Bool) :
    Bool × PMState :=
  match lookupKV st.processes server_id with
  | none => (false, st)
  | some proc =>
      if proc.auth_required then
        if fsExists (authFilePath proc.working_dir) then
          (false, { processes := mapValueAt st.processes server_id
                      (fun p => { p with auth_required := false }) })
        else (true, st)
      else (false, st)

/-- `ProcessManager::set_auth_required`. -/
def set_auth_required (st : PMState) (server_id : String) (required : Bool) : PMState :=
  { processes := mapValueAt st.processes server_id
      (fun p => { p with auth_required := required }) }

/-- `ProcessManager::send_command`: `NotRunning` if absent; with a handle,
write the command plus a line terminator to the process's stdin (`writeErr`
is the OS answer to the write); a virtual record is a silent no-op.  The
second component is the data handed to the stdin write, if any. -/
def send_command (st : PMState) (server_id command : String) (writeErr : Option String) :
    PMState × Except AppError Unit × Option String :=
  match lookupKV st.processes server_id with
  | none => (st, .error (.NotFound "Server not running"), none)
  | some proc =>
      match proc.child with
      | none => (st, .ok (), none)
      | some _ =>
          match writeErr with
          | some e =>
              (st, .error (.Internal ("Failed to send command: " ++ e)), some (command ++ "\n"))
          | none => (st, .ok (), some (command ++ "\n"))

/-- `ProcessManager::broadcast_log`: send a message on the record's channel
if the record exists. -/
def broadcast_log (st : PMState) (server_id : String) (message : String) : PMState :=
  { processes := mapValueAt st.processes server_id
      (fun p => { p with logCh := p.logCh ++ [LogMsg.line message] }) }

/-- A consumer returned by `subscribe_logs`: either a receiver attached to an
existing record's channel at a position in its history, or the receiver of a
fresh channel whose only sender is dropped before `subscribe_logs` returns
and which is referenced nowhere else — it can never be sent to. -/
inductive LogSubscription where
  | inert
  | attached (pos : Nat)
deriving Repr, DecidableEq

/-- `ProcessManager::subscribe_logs`: total (never an error); subscribing on
an existing record attaches at the current end of its channel history;
subscribing on an absent id returns the inert receiver. -/
def subscribe_logs (st : PMState) (server_id : String) : LogSubscription :=
  match lookupKV st.processes server_id with
  | some proc => .attached proc.logCh.length
  | none => .inert

/-- Messages a subscription can consume in a given state: an attached
receiver sees the suffix of its record's channel history past its position;
the inert receiver's channel has no sender, so it sees nothing in any state. -/
def pendingMessages (sub : LogSubscription) (st : PMState) (server_id : String) : List LogMsg :=
  match sub with
  | .inert => []
  | .attached pos =>
      match lookupKV st.processes server_id with
      | some proc => proc.logCh.drop pos
      | none => []

/-! The stdout scanner's line patterns.  The join/leave regexes are
`\[.*\] \[.*\]: (.*) joined the game` and `\[.*\] \[.*\]: (.*) left the game`:
sequences of literals and `.*` wildcards with one capturing group.  The Rust
`regex` crate uses leftmost-first semantics with greedy `.*` (longest
repetition tried first, backtracking on failure); `.` does not match a
newline.  The matcher below implements exactly that semantics for this
pattern shape. -/

/-- One token of a pattern: a literal, or a greedy `.*` (capturing or not). -/
inductive RTok where
  | lit (s : List Char)
  | star (capture : Bool)

/-- Length of the longest prefix `.*` may consume (no newline). -/
def maxStarLen (cs : List Char) : Nat :=
  (cs.takeWhile (fun c => c ≠ '\n')).length

/-- The repetition counts a greedy `.*` tries, longest first. -/
def starTries (n : Nat) : List Nat :=
  (List.range (n + 1)).reverse

/-- Match a token list against a prefix of the input; returns the capture of
the capturing star when the whole token list matches.  A greedy star tries
the longest repetition first and backtracks downward. -/
def mtToks : List RTok → List Char → Option (Option (List Char))
  | [], _ => some none
  | .lit l :: rest, cs =>
      if l.isPrefixOf cs then mtToks rest (cs.drop l.length) else none
  | .star cap :: rest, cs =>
      (starTries (maxStarLen cs)).findSome? (fun k =>
        match mtToks rest (cs.drop k) with
        | some g => some (if cap then some (cs.take k) else g)
        | none => none)

/-- Unanchored leftmost match: try each start position left to right. -/
def reCaptures (toks : List RTok) : List Char → Option (Option (List Char))
  | [] => mtToks toks []
  | c :: cs =>
      match mtToks toks (c :: cs) with
      | some g => some g
      | none => reCaptures toks cs

/-- Token form of `\[.*\] \[.*\]: (.*) joined the game`. -/
def joinToks : List RTok :=
  [.lit ['['], .star false, .lit (String.data "] ["), .star false,
   .lit (String.data "]: "), .star true, .lit (String.data " joined the game")]

/-- Token form of `\[.*\] \[.*\]: (.*) left the game`. -/
def leaveToks : List RTok :=
  [.lit ['['], .star false, .lit (String.data "] ["), .star false,
   .lit (String.data "]: "), .star true, .lit (String.data " left the game")]

/-- `join_re.captures(line)` with `caps.get(1)`: the captured player name. -/
def join_captures (line : List Char) : Option (List Char) :=
  match reCaptures joinToks line with
  | some (some g) => some g
  | _ => none

/-- `leave_re.captures(line)` with `caps.get(1)`. -/
def leave_captures (line : List Char) : Option (List Char) :=
  match reCaptures leaveToks line with
  | some (some g) => some g
  | _ => none

/-- Substring containment (`str::contains` with a literal pattern, and the
literal regex `Universe ready!`). -/
def containsSeq : List Char → List Char → Bool
  | [], needle => needle.isEmpty
  | hay@(_ :: t), needle => needle.isPrefixOf hay || containsSeq t needle

/-- The server-ready pattern `Universe ready!` (literal search). -/
def universeReady (line : List Char) : Bool :=
  containsSeq line (String.data "Universe ready!")

/-- The runtime auth-prompt detection condition, common to the stdout and
stderr readers. -/
def authPrompt (line : List Char) : Bool :=
  (containsSeq line (String.data "IMPORTANT") &&
    (containsSeq line (String.data "authentifier") ||
     containsSeq line (String.data "authenticate"))) ||
  containsSeq line (String.data "[HytaleServer] No server tokens configured") ||
  containsSeq line (String.data "/auth login to authenticate")

/-- Effect of one stdout line on the owning record — the body of the stdout
reader loop: join match inserts the captured name into the player set (the
fire-and-forget persistence write to the excluded storage layer is out of
scope); otherwise a leave match removes it; otherwise the ready pattern sends
a synthetic status line; independently, an auth prompt sets the flag; finally
the line itself is sent on the channel.  The log-file mirror write is a pure
filesystem effect and is not part of the state. -/
def scan_line_proc (line : List Char) (p : ServerProcess) : ServerProcess :=
  let p1 :=
    match join_captures line with
    | some name => { p with players := insertSet p.players (String.mk name) }
    | none =>
        match leave_captures line with
        | some name => { p with players := removeSet p.players (String.mk name) }
        | none =>
            if universeReady line then { p with logCh := p.logCh ++ [LogMsg.status "running"] }
            else p
  let p2 := if authPrompt line then { p1 with auth_required := true } else p1
  { p2 with logCh := p2.logCh ++ [LogMsg.line (String.mk line)] }

/-- One stdout line arriving for a record, as a table transition (the reader
thread mutates the record's shared fields through their `Arc`s). -/
def scan_line (st : PMState) (server_id : String) (line : List Char) : PMState :=
  { processes := mapValueAt st.processes server_id (scan_line_proc line) }

/-- Effect of one stderr line: prefix with `[STDERR] `, send on the channel,
and run the same auth-prompt detection on the raw line. -/
def scan_stderr_line_proc (line : List Char) (p : ServerProcess) : ServerProcess :=
  let p1 := { p with logCh := p.logCh ++ [LogMsg.line ("[STDERR] " ++ String.mk line)] }
  if authPrompt line then { p1 with auth_required := true } else p1

/-- One stderr line arriving for a record, as a table transition. -/
def scan_stderr_line (st : PMState) (server_id : String) (line : List Char) : PMState :=
  { processes := mapValueAt st.processes server_id (scan_stderr_line_proc line) }

/-! The metrics sampler loop. -/

/-- The OS facts one sampler tick consumes: the sysinfo snapshot (per-PID
CPU/memory reading, absent when the PID is not in the snapshot) and the
recursive file-size walk of a directory. -/
structure MetricsEnv where
  sysinfo : Nat → Option (Nat × Nat)
  diskSize : String → Nat

/-- Effect of one sampler tick on one record: a record with no handle is
skipped; a record whose PID is absent from the snapshot (the process is not
live) is skipped; otherwise CPU and memory are cached every tick, and on
every 15th tick (`tick_count % 15 == 0`) the disk walk runs and its result is
cached as disk usage; the tagged metrics message is cached and sent on the
channel. -/
def metricsTickProc (env : MetricsEnv) (tick_count : Nat) (p : ServerProcess) : ServerProcess :=
  match p.child with
  | none => p
  | some child =>
      match env.sysinfo child.pid with
      | none => p
      | some (cpu, memory) =>
          let diskPart : Option Nat :=
            if tick_count % 15 = 0 then some (env.diskSize p.working_dir) else none
          let mj : MetricsJson := { cpu := cpu, memory := memory, disk_bytes := diskPart }
          { p with
              last_cpu := cpu
              last_memory := memory
              last_disk := if tick_count % 15 = 0 then env.diskSize p.working_dir else p.last_disk
              last_metrics := some mj
              logCh := p.logCh ++ [LogMsg.metrics mj] }

/-- One full sampler tick over the table (the loop iterates `procs.iter()`
under a read acquisition of the table lock, mutating per-record caches
through their own locks). -/
def metricsTick (st : PMState) (env : MetricsEnv) (tick_count : Nat) : PMState :=
  { processes := st.processes.map (fun kv => (kv.1, metricsTickProc env tick_count kv.2)) }

/-- `ProcessManager::restart`: if `is_running` (which may lazily clean up a
dead handle), `stop` and propagate its error; then `start` with the same
arguments.  `tw` is the liveness observed by `is_running`, `stopTw` the one
observed by `stop` after the grace period. -/
def restart (st : PMState) (server_id working_dir : String)
    (tw stopTw : TryWaitRes) (killErr : Option String)
    (spawn : Except String Nat) (now : Nat) :
    PMState × Except AppError Unit :=
  let r := is_running st server_id tw
  if r.1 then
    let s := stop r.2 server_id stopTw killErr
    match s.2.1 with
    | .error e => (s.1, .error e)
    | .ok _ => start s.1 server_id working_dir spawn now
  else
    start r.2 server_id working_dir spawn now

/-- `ProcessManager::get_online_players`. -/
def get_online_players (st : PMState) (server_id : String) : Option (List String) :=
  (lookupKV st.processes server_id).map (fun p => p.players)

/-- `ProcessManager::get_metrics_data`: zeroed triple for an untracked id. -/
def get_metrics_data (st : PMState) (server_id : String) : Nat × Nat × Nat :=
  match lookupKV st.processes server_id with
  | some proc => (proc.last_cpu, proc.last_memory, proc.last_disk)
  | none => (0, 0, 0)

/-! Operation sequences.  Every table-mutating entry point of
`ProcessManager`, each one executed atomically (the source performs its
check and mutation under a single acquisition of the table's lock), plus the
record-local transitions driven by the reader threads and the sampler. -/

/-- One atomic step of the system. -/
inductive Op where
  | opStart (server_id working_dir : String) (spawn : Except String Nat) (now : Nat)
  | opRegisterInstalling (server_id working_dir : String) (now : Nat)
  | opRemove (server_id : String)
  | opStop (server_id : String) (tw : TryWaitRes) (killErr : Option String)
  | opKill (server_id : String) (killErr : Option String)
  | opIsRunning (server_id : String) (tw : TryWaitRes)
  | opIsAuthRequired (server_id : String) (fsExists : String → Bool)
  | opSetAuthRequired (server_id : String) (required : Bool)
  | opSendCommand (server_id command : String) (writeErr : Option String)
  | opBroadcastLog (server_id message : String)
  | opScanLine (server_id : String) (line : List Char)
  | opScanStderrLine (server_id : String) (line : List Char)
  | opMetricsTick (env : MetricsEnv) (tick_count : Nat)

/-- The state reached after one atomic step. -/
def step (st : PMState) : Op → PMState
  | .opStart server_id working_dir spawn now => (start st server_id working_dir spawn now).1
  | .opRegisterInstalling server_id working_dir now =>
      (register_installing st server_id working_dir now).1
  | .opRemove server_id => remove st server_id
  | .opStop server_id tw killErr => (stop st server_id tw killErr).1
  | .opKill server_id killErr => (kill st server_id killErr).1
  | .opIsRunning server_id tw => (is_running st server_id tw).2
  | .opIsAuthRequired server_id fsExists => (is_auth_required st server_id fsExists).2
  | .opSetAuthRequired server_id required => set_auth_required st server_id required
  | .opSendCommand server_id command writeErr => (send_command st server_id command writeErr).1
  | .opBroadcastLog server_id message => broadcast_log st server_id message
  | .opScanLine server_id line => scan_line st server_id line
  | .opScanStderrLine server_id line => scan_stderr_line st server_id line
  | .opMetricsTick env tick_count => metricsTick st env tick_count

/-- Run a sequence of atomic steps. -/
def runOps (st : PMState) (ops : List Op) : PMState :=
  ops.foldl step st

/-- The manager's initial state: an empty table (`HashMap::new`). -/
def initState : PMState :=
  { processes := [] }

/-- At most one record per server id: the table's keys are pairwise
distinct. -/
def keysNodup (st : PMState) : Prop :=
  (st.processes.map Prod.fst).Nodup

/-! Concrete sample states used by the witnesses. -/

/-- A virtual record (no handle), working directory `wd`. -/
def sampleVirtual : ServerProcess :=
  { child := none
    logCh := []
    players := []
    last_metrics := none
    last_cpu := 0
    last_memory := 0
    last_disk := 0
    working_dir := "wd"
    started_at := some 0
    auth_required := false }

/-- A record holding a handle with PID 7. -/
def sampleChild : ServerProcess :=
  { sampleVirtual with child := some { pid := 7 } }

/-- A record with a handle and the auth flag raised. -/
def sampleAuth : ServerProcess :=
  { sampleChild with auth_required := true }

/-- A table holding one virtual record under id `s`. -/
def stVirt : PMState :=
  { processes := [("s", sampleVirtual)] }

/-- A table holding one handle-bearing record under id `s`. -/
def stChild : PMState :=
  { processes := [("s", sampleChild)] }

/-- A table holding one auth-flagged record under id `s`. -/
def stAuth : PMState :=
  { processes := [("s", sampleAuth)] }

/-- A join line for player `Alice`. -/
def c6Join : List Char :=
  String.data "[] []: Alice joined the game"

/-- A line that matches the leave pattern for `Alice` but also matches the
join pattern (capturing `Alice left the game`). -/
def c6Both : List Char :=
  String.data "[] []: Alice left the game joined the game"

/-- A leave line for player `Alice` that does not match the join pattern. -/
def c6Leave : List Char :=
  String.data "[] []: Alice left the game"

/-! Helper lemmas about the association-list operations. -/

theorem lookupKV_eq_none_iff {β : Type} (l : List (String × β)) (k : String) :
    lookupKV l k = none ↔ k ∉ l.map Prod.fst := by
  induction l with
  | nil => simp [lookupKV]
  | cons kv rest ih =>
      obtain ⟨k1, v1⟩ := kv
      by_cases hk : k1 = k
      · subst hk
        simp [lookupKV]
      · simp only [lookupKV, if_neg hk, List.map_cons, List.mem_cons, ih]
        constructor
        · intro hnot hor
          rcases hor with h1 | h2
          · exact hk h1.symm
          · exact hnot h2
        · intro hnot h2
          exact hnot (Or.inr h2)

theorem containsKV_eq_false_iff {β : Type} (l : List (String × β)) (k : String) :
    containsKV l k = false ↔ lookupKV l k = none := by
  cases h : lookupKV l k <;> simp [containsKV, h]

theorem lookupKV_removeKV_self {β : Type} (l : List (String × β)) (k : String) :
    lookupKV (removeKV l k) k = none := by
  rw [lookupKV_eq_none_iff]
  intro hmem
  rcases List.mem_map.mp hmem with ⟨kv, hkv, hfst⟩
  rcases List.mem_filter.mp hkv with ⟨_, hne⟩
  exact absurd hfst (by simpa using hne)

theorem lookupKV_mapValues {β : Type} (f : β → β) (l : List (String × β)) (k : String) :
    lookupKV (l.map (fun kv => (kv.1, f kv.2))) k = (lookupKV l k).map f := by
  induction l with
  | nil => simp [lookupKV]
  | cons kv rest ih =>
      obtain ⟨k1, v1⟩ := kv
      by_cases hk : k1 = k <;> simp [lookupKV, hk, ih]

theorem lookupKV_mapValueAt_self {β : Type} (l : List (String × β)) (k : String) (f : β → β) :
    lookupKV (mapValueAt l k f) k = (lookupKV l k).map f := by
  induction l with
  | nil => rfl
  | cons kv rest ih =>
      obtain ⟨k1, v1⟩ := kv
      by_cases hk : k1 = k
      · subst hk
        have hhead : mapValueAt ((k1, v1) :: rest) k1 f = (k1, f v1) :: mapValueAt rest k1 f := by
          simp [mapValueAt]
        rw [hhead]
        simp [lookupKV]
      · have hhead : mapValueAt ((k1, v1) :: rest) k f = (k1, v1) :: mapValueAt rest k f := by
          simp [mapValueAt, if_neg hk]
        rw [hhead]
        simp [lookupKV, if_neg hk, ih]

theorem keys_removeKV {β : Type} (l : List (String × β)) (k : String) :
    ((removeKV l k).map Prod.fst).Sublist (l.map Prod.fst) :=
  (List.filter_sublist l).map Prod.fst

theorem keys_mapValueAt {β : Type} (l : List (String × β)) (k : String) (f : β → β) :
    (mapValueAt l k f).map Prod.fst = l.map Prod.fst := by
  induction l with
  | nil => rfl
  | cons kv rest ih =>
      by_cases hk : kv.1 = k <;> simp [mapValueAt, hk] <;> simpa [mapValueAt] using ih

theorem keys_mapValues {β : Type} (f : β → β) (l : List (String × β)) :
    (l.map (fun kv => (kv.1, f kv.2))).map Prod.fst = l.map Prod.fst := by
  simp [List.map_map, Function.comp]

/-! Preservation of the at-most-one-record-per-id invariant. -/

theorem keysNodup_remove (st : PMState) (server_id : String) (h : keysNodup st) :
    keysNodup (remove st server_id) :=
  List.Nodup.sublist (keys_removeKV st.processes server_id) h

theorem keysNodup_insert_of_lookup_none (st : PMState) (server_id : String)
    (v : ServerProcess) (hl : lookupKV st.processes server_id = none) (h : keysNodup st) :
    keysNodup (PMState.mk (insertKV st.processes server_id v)) := by
  refine List.nodup_cons.mpr ⟨?_, h⟩
  exact (lookupKV_eq_none_iff st.processes server_id).mp hl

theorem keysNodup_step (st : PMState) (op : Op) (h : keysNodup st) : keysNodup (step st op) := by
  cases op with
  | opStart server_id working_dir spawn now =>
      cases hc : containsKV st.processes server_id with
      | true => simpa [step, start, hc] using h
      | false =>
          have hl := (containsKV_eq_false_iff st.processes server_id).mp hc
          cases spawn with
          | error e => simpa [step, start, hc] using h
          | ok pid =>
              simpa [step, start, hc] using
                keysNodup_insert_of_lookup_none st server_id _ hl h
  | opRegisterInstalling server_id working_dir now =>
      cases hc : containsKV st.processes server_id with
      | true => simpa [step, register_installing, hc] using h
      | false =>
          have hl := (containsKV_eq_false_iff st.processes server_id).mp hc
          simpa [step, register_installing, hc] using
            keysNodup_insert_of_lookup_none st server_id _ hl h
  | opRemove server_id => exact keysNodup_remove st server_id h
  | opStop server_id tw killErr =>
      cases hl : lookupKV st.processes server_id with
      | none => simpa [step, stop, hl] using h
      | some p =>
          cases hch : p.child with
          | none => simpa [step, stop, hl, hch] using keysNodup_remove st server_id h
          | some c =>
              cases tw with
              | stillRunning =>
                  cases killErr with
                  | none =>
                      simpa [step, stop, hl, hch] using keysNodup_remove st server_id h
                  | some e => simpa [step, stop, hl, hch] using h
              | exited => simpa [step, stop, hl, hch] using keysNodup_remove st server_id h
              | waitError e => simpa [step, stop, hl, hch] using h
  | opKill server_id killErr =>
      cases hl : lookupKV st.processes server_id with
      | none => simpa [step, kill, hl] using h
      | some p =>
          cases hch : p.child with
          | none => simpa [step, kill, hl, hch] using keysNodup_remove st server_id h
          | some c =>
              cases killErr with
              | none => simpa [step, kill, hl, hch] using keysNodup_remove st server_id h
              | some e => simpa [step, kill, hl, hch] using h
  | opIsRunning server_id tw =>
      cases hl : lookupKV st.processes server_id with
      | none => simpa [step, is_running, hl] using h
      | some p =>
          cases hch : p.child with
          | none => simpa [step, is_running, hl, hch] using h
          | some c =>
              cases tw with
              | stillRunning => simpa [step, is_running, hl, hch] using h
              | exited => simpa [step, is_running, hl, hch] using keysNodup_remove st server_id h
              | waitError e => simpa [step, is_running, hl, hch] using h
  | opIsAuthRequired server_id fsExists =>
      cases hl : lookupKV st.processes server_id with
      | none => simpa [step, is_auth_required, hl] using h
      | some p =>
          cases ha : p.auth_required with
          | false => simpa [step, is_auth_required, hl, ha] using h
          | true =>
              cases hf : fsExists (authFilePath p.working_dir) with
              | false => simpa [step, is_auth_required, hl, ha, hf] using h
              | true =>
                  have : keysNodup (PMState.mk (mapValueAt st.processes server_id
                      (fun p => { p with auth_required := false }))) := by
                    unfold keysNodup
                    rw [keys_mapValueAt]
                    exact h
                  simpa [step, is_auth_required, hl, ha, hf] using this
  | opSetAuthRequired server_id required =>
      unfold step set_auth_required keysNodup
      rw [keys_mapValueAt]
      exact h
  | opSendCommand server_id command writeErr =>
      cases hl : lookupKV st.processes server_id with
      | none => simpa [step, send_command, hl] using h
      | some p =>
          cases hch : p.child with
          | none => simpa [step, send_command, hl, hch] using h
          | some c =>
              cases writeErr with
              | none => simpa [step, send_command, hl, hch] using h
              | some e => simpa [step, send_command, hl, hch] using h
  | opBroadcastLog server_id message =>
      unfold step broadcast_log keysNodup
      rw [keys_mapValueAt]
      exact h
  | opScanLine server_id line =>
      unfold step scan_line keysNodup
      rw [keys_mapValueAt]
      exact h
  | opScanStderrLine server_id line =>
      unfold step scan_stderr_line keysNodup
      rw [keys_mapValueAt]
      exact h
  | opMetricsTick env tick_count =>
      unfold step metricsTick keysNodup
      rw [keys_mapValues]
      exact h

theorem keysNodup_runOps (st : PMState) (ops : List Op) (h : keysNodup st) :
    keysNodup (runOps st ops) := by
  induction ops generalizing st with
  | nil => exact h
  | cons op rest ih => exact ih (step st op) (keysNodup_step st op h)

/-! Lemmas about the player set and the scanner. -/

theorem mem_insertSet_self (s : List String) (x : String) : x ∈ insertSet s x := by
  by_cases h : x ∈ s <;> simp [insertSet, h]

theorem not_mem_removeSet_self (s : List String) (x : String) : x ∉ removeSet s x := by
  simp [removeSet]

/-- The scanner's effect on the player set: a join match inserts the
captured name, otherwise a leave match removes it, otherwise the set is
untouched; the status, auth and channel effects never touch the set. -/
theorem scan_line_proc_players (line : List Char) (p : ServerProcess) :
    (scan_line_proc line p).players =
      match join_captures line with
      | some name => insertSet p.players (String.mk name)
      | none =>
          match leave_captures line with
          | some name => removeSet p.players (String.mk name)
          | none => p.players := by
  cases hj : join_captures line with
  | some n =>
      cases hA : authPrompt line <;> simp [scan_line_proc, hj, hA]
  | none =>
      cases hl2 : leave_captures line with
      | some n =>
          cases hA : authPrompt line <;> simp [scan_line_proc, hj, hl2, hA]
      | none =>
          cases hu : universeReady line <;> cases hA : authPrompt line <;>
            simp [scan_line_proc, hj, hl2, hu, hA]

/-- Player-set effect of a join line. -/
theorem scan_line_proc_players_join (line : List Char) (p : ServerProcess)
    (name : List Char) (h : join_captures line = some name) :
    (scan_line_proc line p).players = insertSet p.players (String.mk name) := by
  rw [scan_line_proc_players, h]

/-- Player-set effect of a leave line that is not also a join line. -/
theorem scan_line_proc_players_leave (line : List Char) (p : ServerProcess)
    (name : List Char) (hj : join_captures line = none)
    (h : leave_captures line = some name) :
    (scan_line_proc line p).players = removeSet p.players (String.mk name) := by
  rw [scan_line_proc_players, hj, h]

/-! The claims. -/

/-- Claim C1: for every server id at most one Process Record exists in the
table at any instant.  `start` and `register_installing` each fail with the
`AlreadyActive` error and leave the table untouched whenever a record for the
id already exists, whether handle-bearing or virtual; the existence check and
the insertion are one atomic step (the source holds the table's write lock
across both), so no sequence of operations from the initial state yields two
records for the same id. -/
theorem claim_C1 :
    (∀ (st : PMState) (server_id working_dir : String) (spawn : Except String Nat) (now : Nat),
        containsKV st.processes server_id = true →
        start st server_id working_dir spawn now =
          (st, .error (.BadRequest "Server already running"))) ∧
    (∀ (st : PMState) (server_id working_dir : String) (now : Nat),
        containsKV st.processes server_id = true →
        register_installing st server_id working_dir now =
          (st, .error (.BadRequest "Server already active"))) ∧
    (∀ ops : List Op, keysNodup (runOps initState ops)) := by
  refine ⟨?_, ?_, ?_⟩
  · intro st server_id working_dir spawn now hc
    simp [start, hc]
  · intro st server_id working_dir now hc
    simp [register_installing, hc]
  · intro ops
    exact keysNodup_runOps initState ops (by simp [keysNodup, initState])

/-- Witness for C1 at concrete inputs. -/
theorem claim_C1_witness :
    containsKV stChild.processes "s" = true ∧
    containsKV stVirt.processes "s" = true ∧
    start stChild "s" "wd" (Except.ok 9) 0 =
      (stChild, .error (.BadRequest "Server already running")) ∧
    register_installing stVirt "s" "wd" 0 =
      (stVirt, .error (.BadRequest "Server already active")) ∧
    keysNodup (runOps initState [Op.opStart "s" "wd" (Except.ok 1) 0]) :=
  ⟨by decide, by decide,
   claim_C1.1 stChild "s" "wd" (Except.ok 9) 0 (by decide),
   claim_C1.2.1 stVirt "s" "wd" 0 (by decide),
   claim_C1.2.2 [Op.opStart "s" "wd" (Except.ok 1) 0]⟩

/-- Claim C2: `stop` fails with `NotRunning` when no record exists; with a
handle it writes the shutdown command to the process's stdin, waits the
fixed 5-second grace period, force-kills only if the process is still alive
afterwards, and in every such outcome — virtual record, process already
exited, or force-killed — the record is gone from the table when `stop`
returns. -/
theorem claim_C2 (st : PMState) (server_id : String) (tw : TryWaitRes)
    (killErr : Option String) :
    (lookupKV st.processes server_id = none →
        stop st server_id tw killErr =
          (st, .error (.NotFound "Server not running"), ⟨false, 0, false⟩)) ∧
    (∀ p, lookupKV st.processes server_id = some p → p.child = none →
        stop st server_id tw killErr = (remove st server_id, .ok (), ⟨false, 0, false⟩) ∧
        lookupKV (stop st server_id tw killErr).1.processes server_id = none) ∧
    (∀ p c, lookupKV st.processes server_id = some p → p.child = some c → tw = .exited →
        stop st server_id tw killErr = (remove st server_id, .ok (), ⟨true, 5, false⟩) ∧
        lookupKV (stop st server_id tw killErr).1.processes server_id = none) ∧
    (∀ p c, lookupKV st.processes server_id = some p → p.child = some c →
        tw = .stillRunning → killErr = none →
        stop st server_id tw killErr = (remove st server_id, .ok (), ⟨true, 5, true⟩) ∧
        lookupKV (stop st server_id tw killErr).1.processes server_id = none) := by
  refine ⟨?_, ?_, ?_, ?_⟩
  · intro hl
    simp [stop, hl]
  · intro p hl hch
    simp [stop, hl, hch, remove, lookupKV_removeKV_self]
  · intro p c hl hch htw
    subst htw
    simp [stop, hl, hch, remove, lookupKV_removeKV_self]
  · intro p c hl hch htw hke
    subst htw
    subst hke
    simp [stop, hl, hch, remove, lookupKV_removeKV_self]

/-- Witness for C2: a record whose process exited within the grace period is
not force-killed and is removed. -/
theorem claim_C2_witness :
    lookupKV stChild.processes "s" = some sampleChild ∧
    sampleChild.child = some { pid := 7 } ∧
    (stop stChild "s" TryWaitRes.exited none =
        (remove stChild "s", .ok (), ⟨true, 5, false⟩) ∧
     lookupKV (stop stChild "s" TryWaitRes.exited none).1.processes "s" = none) :=
  ⟨by decide, by decide,
   (claim_C2 stChild "s" TryWaitRes.exited none).2.2.1 sampleChild { pid := 7 }
     (by decide) (by decide) rfl⟩

/-- Claim C3: `is_running` on a tracked handle whose process has exited
returns false and removes the record (lazy cleanup), so a subsequent `start`
for the same id succeeds; it returns true on a virtual record or a live
handle, and false when no record exists. -/
theorem claim_C3 (st : PMState) (server_id : String) (tw : TryWaitRes) :
    (lookupKV st.processes server_id = none → is_running st server_id tw = (false, st)) ∧
    (∀ p, lookupKV st.processes server_id = some p → p.child = none →
        is_running st server_id tw = (true, st)) ∧
    (∀ p c, lookupKV st.processes server_id = some p → p.child = some c →
        tw = .stillRunning → is_running st server_id tw = (true, st)) ∧
    (∀ p c, lookupKV st.processes server_id = some p → p.child = some c → tw = .exited →
        is_running st server_id tw = (false, remove st server_id) ∧
        lookupKV (is_running st server_id tw).2.processes server_id = none ∧
        ∀ (working_dir : String) (pid now : Nat),
          (start (is_running st server_id tw).2 server_id working_dir
              (Except.ok pid) now).2 = .ok ()) := by
  refine ⟨?_, ?_, ?_, ?_⟩
  · intro hl
    simp [is_running, hl]
  · intro p hl hch
    simp [is_running, hl, hch]
  · intro p c hl hch htw
    subst htw
    simp [is_running, hl, hch]
  · intro p c hl hch htw
    subst htw
    have hclean : containsKV (remove st server_id).processes server_id = false := by
      simp [remove, containsKV, lookupKV_removeKV_self]
    refine ⟨by simp [is_running, hl, hch], ?_, ?_⟩
    · simp [is_running, hl, hch, remove, lookupKV_removeKV_self]
    · intro working_dir pid now
      simp [is_running, hl, hch, start, hclean]

/-- Witness for C3: a dead tracked process is lazily cleaned up and the id
can be started again. -/
theorem claim_C3_witness :
    lookupKV stChild.processes "s" = some sampleChild ∧
    (is_running stChild "s" TryWaitRes.exited = (false, remove stChild "s") ∧
     lookupKV (is_running stChild "s" TryWaitRes.exited).2.processes "s" = none ∧
     ∀ (working_dir : String) (pid now : Nat),
       (start (is_running stChild "s" TryWaitRes.exited).2 "s" working_dir
           (Except.ok pid) now).2 = .ok ()) :=
  ⟨by decide,
   (claim_C3 stChild "s" TryWaitRes.exited).2.2.2 sampleChild { pid := 7 }
     (by decide) (by decide) rfl⟩

/-- Claim C4: `is_auth_required` self-heals — when the flag is raised and
`auth.enc` exists under the record's working directory the call clears the
flag and returns false; with the flag raised and no such file it returns
true; with the flag down, or no record, it returns false. -/
theorem claim_C4 (st : PMState) (server_id : String) (fsExists : String → Bool) :
    (lookupKV st.processes server_id = none →
        is_auth_required st server_id fsExists = (false, st)) ∧
    (∀ p, lookupKV st.processes server_id = some p → p.auth_required = false →
        is_auth_required st server_id fsExists = (false, st)) ∧
    (∀ p, lookupKV st.processes server_id = some p → p.auth_required = true →
        fsExists (authFilePath p.working_dir) = false →
        is_auth_required st server_id fsExists = (true, st)) ∧
    (∀ p, lookupKV st.processes server_id = some p → p.auth_required = true →
        fsExists (authFilePath p.working_dir) = true →
        (is_auth_required st server_id fsExists).1 = false ∧
        lookupKV (is_auth_required st server_id fsExists).2.processes server_id =
          some { p with auth_required := false }) := by
  refine ⟨?_, ?_, ?_, ?_⟩
  · intro hl
    simp [is_auth_required, hl]
  · intro p hl ha
    simp [is_auth_required, hl, ha]
  · intro p hl ha hf
    simp [is_auth_required, hl, ha, hf]
  · intro p hl ha hf
    simp [is_auth_required, hl, ha, hf, lookupKV_mapValueAt_self]

/-- Witness for C4: the auth flag self-heals once the credential file
appears. -/
theorem claim_C4_witness :
    lookupKV stAuth.processes "s" = some sampleAuth ∧
    sampleAuth.auth_required = true ∧
    ((is_auth_required stAuth "s" (fun _ => true)).1 = false ∧
     lookupKV (is_auth_required stAuth "s" (fun _ => true)).2.processes "s" =
       some { sampleAuth with auth_required := false }) :=
  ⟨by decide, by decide,
   (claim_C4 stAuth "s" (fun _ => true)).2.2.2 sampleAuth (by decide) (by decide) rfl⟩

/-- Claim C5: `subscribe_logs` is total — on a tracked id it returns a fresh
consumer attached at the current end of that record's channel history (no
pending messages at subscription time), and on an untracked id it returns
the inert consumer, which yields no message in any state. -/
theorem claim_C5 (st : PMState) (server_id : String) :
    (∀ p, lookupKV st.processes server_id = some p →
        subscribe_logs st server_id = .attached p.logCh.length ∧
        pendingMessages (subscribe_logs st server_id) st server_id = []) ∧
    (lookupKV st.processes server_id = none →
        subscribe_logs st server_id = .inert ∧
        ∀ (st2 : PMState) (id2 : String),
          pendingMessages (subscribe_logs st server_id) st2 id2 = []) := by
  constructor
  · intro p hl
    simp [subscribe_logs, pendingMessages, hl]
  · intro hl
    simp [subscribe_logs, pendingMessages, hl]

/-- Witness for C5 on a tracked and an untracked id. -/
theorem claim_C5_witness :
    lookupKV stChild.processes "s" = some sampleChild ∧
    (subscribe_logs stChild "s" = .attached sampleChild.logCh.length ∧
     pendingMessages (subscribe_logs stChild "s") stChild "s" = []) ∧
    lookupKV stChild.processes "t" = none ∧
    (subscribe_logs stChild "t" = .inert ∧
     ∀ (st2 : PMState) (id2 : String),
       pendingMessages (subscribe_logs stChild "t") st2 id2 = []) :=
  ⟨by decide,
   (claim_C5 stChild "s").1 sampleChild (by decide),
   by decide,
   (claim_C5 stChild "t").2 (by decide)⟩

/-- Claim C6 counterexample: the claim quantifies over every line matching
the leave pattern, but the scanner checks the join pattern first.  The line
`[] []: Alice left the game joined the game` matches the leave pattern with
capture `Alice`, yet it also matches the join pattern (greedy capture
`Alice left the game`), so scanning it inserts that capture instead of
removing `Alice`: after a join line for `Alice` followed by this leave-
matching line, the player set still contains `Alice`. -/
theorem claim_C6_counterexample :
    join_captures c6Join = some (String.data "Alice") ∧
    leave_captures c6Both = some (String.data "Alice") ∧
    join_captures c6Both = some (String.data "Alice left the game") ∧
    "Alice" ∈ (get_online_players
        (scan_line (scan_line stVirt "s" c6Join) "s" c6Both) "s").getD [] := by
  refine ⟨by decide, by decide, by decide, by decide⟩

/-- Claim C6 (amended): for every tracked record and player name, scanning a
line matching the join pattern for that name and then a line matching the
leave pattern for the same name — and not also matching the join pattern,
which the scanner tries first — is a round-trip on the player set: the name
is in `get_online_players` after the join line and out of it after the leave
line. -/
theorem claim_C6 (st : PMState) (server_id : String) (p : ServerProcess) (name : String)
    (l1 l2 : List Char)
    (hp : lookupKV st.processes server_id = some p)
    (h1 : join_captures l1 = some name.data)
    (h2j : join_captures l2 = none)
    (h2 : leave_captures l2 = some name.data) :
    (∃ players, get_online_players (scan_line st server_id l1) server_id = some players ∧
        name ∈ players) ∧
    (∃ players2,
        get_online_players (scan_line (scan_line st server_id l1) server_id l2) server_id =
          some players2 ∧ name ∉ players2) := by
  have hmk : String.mk name.data = name := by
    cases name
    rfl
  have hpl1 : (scan_line_proc l1 p).players = insertSet p.players name := by
    have h := scan_line_proc_players_join l1 p name.data h1
    rw [hmk] at h
    exact h
  have hp1 : lookupKV (scan_line st server_id l1).processes server_id =
      some (scan_line_proc l1 p) := by
    simp [scan_line, lookupKV_mapValueAt_self, hp]
  have hp2 : lookupKV (scan_line (scan_line st server_id l1) server_id l2).processes
      server_id = some (scan_line_proc l2 (scan_line_proc l1 p)) := by
    simp [scan_line, lookupKV_mapValueAt_self, hp]
  have hpl2 : (scan_line_proc l2 (scan_line_proc l1 p)).players =
      removeSet (insertSet p.players name) name := by
    have h := scan_line_proc_players_leave l2 (scan_line_proc l1 p) name.data h2j h2
    rw [hmk] at h
    rw [hpl1] at h
    exact h
  constructor
  · refine ⟨(scan_line_proc l1 p).players, ?_, ?_⟩
    · simp only [get_online_players, hp1, Option.map_some']
    · rw [hpl1]
      exact mem_insertSet_self p.players name
  · refine ⟨(scan_line_proc l2 (scan_line_proc l1 p)).players, ?_, ?_⟩
    · simp only [get_online_players, hp2, Option.map_some']
    · rw [hpl2]
      exact not_mem_removeSet_self (insertSet p.players name) name

/-- Witness for the amended C6 with the lines for `Alice`. -/
theorem claim_C6_witness :
    lookupKV stVirt.processes "s" = some sampleVirtual ∧
    join_captures c6Join = some (String.data "Alice") ∧
    join_captures c6Leave = none ∧
    leave_captures c6Leave = some (String.data "Alice") ∧
    ((∃ players, get_online_players (scan_line stVirt "s" c6Join) "s" = some players ∧
        "Alice" ∈ players) ∧
     (∃ players2,
        get_online_players (scan_line (scan_line stVirt "s" c6Join) "s" c6Leave) "s" =
          some players2 ∧ "Alice" ∉ players2)) :=
  ⟨by decide, by decide, by decide, by decide,
   claim_C6 stVirt "s" sampleVirtual "Alice" c6Join c6Leave
     (by decide) (by decide) (by decide) (by decide)⟩

/-- Claim C7: `send_command` fails with `NotRunning` when no record exists;
with a handle it writes the command plus a line terminator to the process's
stdin; on a virtual record it succeeds silently, changing nothing. -/
theorem claim_C7 (st : PMState) (server_id command : String) (writeErr : Option String) :
    (lookupKV st.processes server_id = none →
        send_command st server_id command writeErr =
          (st, .error (.NotFound "Server not running"), none)) ∧
    (∀ p c, lookupKV st.processes server_id = some p → p.child = some c →
        writeErr = none →
        send_command st server_id command writeErr = (st, .ok (), some (command ++ "\n"))) ∧
    (∀ p, lookupKV st.processes server_id = some p → p.child = none →
        send_command st server_id command writeErr = (st, .ok (), none)) := by
  refine ⟨?_, ?_, ?_⟩
  · intro hl
    simp [send_command, hl]
  · intro p c hl hch hw
    subst hw
    simp [send_command, hl, hch]
  · intro p hl hch
    simp [send_command, hl, hch]

/-- Witness for C7 on a handle-bearing and a virtual record. -/
theorem claim_C7_witness :
    lookupKV stChild.processes "s" = some sampleChild ∧
    send_command stChild "s" "say hi" none = (stChild, .ok (), some ("say hi" ++ "\n")) ∧
    lookupKV stVirt.processes "s" = some sampleVirtual ∧
    send_command stVirt "s" "say hi" none = (stVirt, .ok (), none) :=
  ⟨by decide,
   (claim_C7 stChild "s" "say hi" none).2.1 sampleChild { pid := 7 }
     (by decide) (by decide) rfl,
   by decide,
   (claim_C7 stVirt "s" "say hi" none).2.2 sampleVirtual (by decide) (by decide)⟩

/-- Claim C8: a sampler tick leaves every record without a live handle
untouched (virtual records, and handle records whose PID the OS snapshot no
longer knows), while for a record with a live handle it caches the sampled
CPU and memory every tick and recomputes the cached disk usage as the
recursive file-size sum of the working directory exactly on ticks where
`tick_count % 15 = 0`, leaving it unchanged otherwise. -/
theorem claim_C8 (st : PMState) (env : MetricsEnv) (tick_count : Nat) (server_id : String) :
    (lookupKV (metricsTick st env tick_count).processes server_id =
        (lookupKV st.processes server_id).map (metricsTickProc env tick_count)) ∧
    (∀ p, p.child = none → metricsTickProc env tick_count p = p) ∧
    (∀ p c, p.child = some c → env.sysinfo c.pid = none →
        metricsTickProc env tick_count p = p) ∧
    (∀ p c cpu memory, p.child = some c → env.sysinfo c.pid = some (cpu, memory) →
        (metricsTickProc env tick_count p).last_cpu = cpu ∧
        (metricsTickProc env tick_count p).last_memory = memory ∧
        (metricsTickProc env tick_count p).last_disk =
          (if tick_count % 15 = 0 then env.diskSize p.working_dir else p.last_disk)) := by
  refine ⟨?_, ?_, ?_, ?_⟩
  · simp [metricsTick, lookupKV_mapValues]
  · intro p hch
    simp [metricsTickProc, hch]
  · intro p c hch hs
    simp [metricsTickProc, hch, hs]
  · intro p c cpu memory hch hs
    simp [metricsTickProc, hch, hs]

/-- Witness for C8: a live handle on a non-walk tick updates CPU/memory and
leaves disk unchanged; a virtual record is untouched. -/
theorem claim_C8_witness :
    sampleChild.child = some { pid := 7 } ∧
    (MetricsEnv.mk (fun _ => some (3, 4)) (fun _ => 10)).sysinfo 7 = some (3, 4) ∧
    ((metricsTickProc (MetricsEnv.mk (fun _ => some (3, 4)) (fun _ => 10)) 1
        sampleChild).last_cpu = 3 ∧
     (metricsTickProc (MetricsEnv.mk (fun _ => some (3, 4)) (fun _ => 10)) 1
        sampleChild).last_memory = 4 ∧
     (metricsTickProc (MetricsEnv.mk (fun _ => some (3, 4)) (fun _ => 10)) 1
        sampleChild).last_disk =
       (if 1 % 15 = 0 then
          (MetricsEnv.mk (fun _ => some (3, 4)) (fun _ => 10)).diskSize
            sampleChild.working_dir
        else sampleChild.last_disk)) ∧
    metricsTickProc (MetricsEnv.mk (fun _ => some (3, 4)) (fun _ => 10)) 1
      sampleVirtual = sampleVirtual :=
  ⟨by decide, rfl,
   (claim_C8 stChild (MetricsEnv.mk (fun _ => some (3, 4)) (fun _ => 10)) 1 "s").2.2.2
     sampleChild { pid := 7 } 3 4 (by decide) rfl,
   (claim_C8 stChild (MetricsEnv.mk (fun _ => some (3, 4)) (fun _ => 10)) 1 "s").2.1
     sampleVirtual (by decide)⟩

/-- Claim C9: `restart` stops then starts when something is tracked as
running (a virtual record or a live handle), proceeds straight to `start`
when nothing is (no record, or a dead handle that `is_running` lazily
removes), and in each case returns the result of that `start` call. -/
theorem claim_C9 (st : PMState) (server_id working_dir : String) (tw stopTw : TryWaitRes)
    (killErr : Option String) (spawn : Except String Nat) (now : Nat) :
    (lookupKV st.processes server_id = none →
        restart st server_id working_dir tw stopTw killErr spawn now =
          start st server_id working_dir spawn now) ∧
    (∀ p, lookupKV st.processes server_id = some p →
        (p.child = none ∨ tw = .stillRunning) →
        (stop st server_id stopTw killErr).2.1 = .ok () →
        restart st server_id working_dir tw stopTw killErr spawn now =
          start (stop st server_id stopTw killErr).1 server_id working_dir spawn now) ∧
    (∀ p c, lookupKV st.processes server_id = some p → p.child = some c → tw = .exited →
        restart st server_id working_dir tw stopTw killErr spawn now =
          start (remove st server_id) server_id working_dir spawn now) := by
  refine ⟨?_, ?_, ?_⟩
  · intro hl
    simp [restart, is_running, hl]
  · intro p hl hrun hok
    have hr : is_running st server_id tw = (true, st) := by
      rcases hrun with hch | htw
      · simp [is_running, hl, hch]
      · subst htw
        cases hch : p.child <;> simp [is_running, hl, hch]
    simp [restart, hr, hok]
  · intro p c hl hch htw
    subst htw
    simp [restart, is_running, hl, hch]

/-- Witness for C9: a live record is stopped then started; a dead handle is
cleaned up and `restart` goes straight to `start`. -/
theorem claim_C9_witness :
    lookupKV stChild.processes "s" = some sampleChild ∧
    (stop stChild "s" TryWaitRes.exited none).2.1 = .ok () ∧
    restart stChild "s" "wd" TryWaitRes.stillRunning TryWaitRes.exited none
        (Except.ok 9) 0 =
      start (stop stChild "s" TryWaitRes.exited none).1 "s" "wd" (Except.ok 9) 0 ∧
    restart stChild "s" "wd" TryWaitRes.exited TryWaitRes.exited none (Except.ok 9) 0 =
      start (remove stChild "s") "s" "wd" (Except.ok 9) 0 :=
  ⟨by decide, rfl,
   (claim_C9 stChild "s" "wd" TryWaitRes.stillRunning TryWaitRes.exited none
       (Except.ok 9) 0).2.1 sampleChild (by decide) (Or.inr rfl) rfl,
   (claim_C9 stChild "s" "wd" TryWaitRes.exited TryWaitRes.exited none
       (Except.ok 9) 0).2.2 sampleChild { pid := 7 } (by decide) (by decide) rfl⟩

/-- Claim C10: when no record exists and the OS refuses to spawn, `start`
returns `SpawnFailed` carrying the OS error text and leaves the table
unchanged, so a later `start` for the same id is not blocked by
`AlreadyActive`. -/
theorem claim_C10 (st : PMState) (server_id working_dir : String) (e : String) (now : Nat)
    (hl : lookupKV st.processes server_id = none) :
    start st server_id working_dir (Except.error e) now =
      (st, .error (.Internal ("Failed to start server: " ++ e))) ∧
    ∀ (wd2 : String) (pid now2 : Nat),
      (start st server_id wd2 (Except.ok pid) now2).2 = .ok () := by
  have hc : containsKV st.processes server_id = false := by
    simp [containsKV, hl]
  constructor
  · simp [start, hc]
  · intro wd2 pid now2
    simp [start, hc]

/-- Witness for C10 on the empty table. -/
theorem claim_C10_witness :
    lookupKV initState.processes "s" = none ∧
    (start initState "s" "wd" (Except.error "boom") 0 =
       (initState, .error (.Internal ("Failed to start server: " ++ "boom"))) ∧
     ∀ (wd2 : String) (pid now2 : Nat),
       (start initState "s" wd2 (Except.ok pid) now2).2 = .ok ()) :=
  ⟨by decide, claim_C10 initState "s" "wd" "boom" 0 (by decide)⟩

end KweebecManager
